import Mathlib

/-!
Shallow embedding of `jupyterhub/oauth/store.py`: the three OAuth2 stores
(`AccessTokenStore`, `AuthCodeStore`, `ClientStore`) backed by the hub
database, together with the `HashComparable` secret wrapper.

The database session is modelled as an explicit state (`DBState`) holding the
committed rows of the four ORM tables touched by this module.  A SQLAlchemy
`query(...).filter(col == v).first()` becomes `List.find?`; `db.add` appends a
row; `db.delete` removes the found row; a `db.commit()` inside a
`try/except: rollback` is modelled by a boolean parameter saying whether the
commit succeeds — when it fails, the rollback discards the pending adds and
deletes of that operation, restoring the state the operation started from.
Queries wrapped in `try/except: rollback` likewise take a boolean: when such a
query raises, the Python code rolls back and then falls through to use the
local variable (`orm_code` / `orm_client`) that was never assigned, which
raises `NameError`; that outcome is the `nameError` error value below.
-/

/-- Row of the hub's user table; only the primary key matters here. -/
structure UserRow where
  id : Nat
deriving DecidableEq

/-- Row of `orm.OAuthCode`. -/
structure OAuthCodeRow where
  client_id : String
  code : String
  expires_at : Int
  user_id : Nat
  redirect_uri : String
deriving DecidableEq

/-- Row of `orm.OAuthClient`. -/
structure OAuthClientRow where
  identifier : String
  secret : String
  redirect_uri : String
deriving DecidableEq

/-- Row of `orm.OAuthAccessToken`. -/
structure OAuthAccessTokenRow where
  client_id : String
  grant_type : String
  expires_at : Int
  refresh_token : Option String
  refresh_expires_at : Option Int
  token : String
  user_id : Nat
deriving DecidableEq

/-- Input value `oauth2.datatype.AccessToken` as consumed by `save_token`. -/
structure AccessToken where
  client_id : String
  grant_type : String
  expires_at : Int
  refresh_token : Option String
  refresh_expires_at : Option Int
  token : String
  user_id : Nat
deriving DecidableEq

/-- Value `oauth2.datatype.AuthorizationCode`, as built by `fetch_by_code`
and consumed by `save_code`. -/
structure AuthorizationCode where
  client_id : String
  code : String
  expires_at : Int
  redirect_uri : String
  scopes : List String
  user_id : Nat
deriving DecidableEq

/-- The `HashComparable` wrapper around a hashed client secret. -/
structure HashComparable where
  hashed_token : String
deriving DecidableEq

/-- Value `oauth2.datatype.Client` returned by `fetch_by_client_id`. -/
structure Client where
  identifier : String
  redirect_uris : List String
  secret : HashComparable
deriving DecidableEq

/-- Errors raised by the store module.  `authCodeNotFound` and
`clientNotFoundError` are the documented lookup misses; `valueError` is the
`ValueError` raised by `save_token` for an unknown user; `nameError` is the
`NameError` Python raises when a local variable is read before assignment. -/
inductive OAuthError where
  | authCodeNotFound
  | clientNotFoundError
  | valueError (msg : String)
  | nameError (local_name : String)
deriving DecidableEq

/-- Committed state of the hub database tables used by the store module. -/
structure DBState where
  users : List UserRow
  oauthCodes : List OAuthCodeRow
  oauthClients : List OAuthClientRow
  oauthAccessTokens : List OAuthAccessTokenRow
deriving DecidableEq

/-- Modelled from the spec: `hash_token` lives in `jupyterhub/utils.py`,
which is not among the reviewed sources.  The spec describes it as a
deterministic one-way digest of its input such that a candidate compares
equal iff it hashes to the stored value.  One-wayness is not expressible in
a functional embedding, so the digest is modelled as an injective tagging
function. -/
def hash_token (token : String) : String :=
  String.mk ('#' :: token.data)

/-- Modelled from the spec: `compare_token` from `jupyterhub/utils.py`
(not among the reviewed sources) succeeds iff the candidate plaintext
hashes to the stored digest. -/
def compare_token (stored candidate : String) : Bool :=
  hash_token candidate == stored

/-- `HashComparable.__eq__`: compares as equal to the unhashed original. -/
def HashComparable.eq (self : HashComparable) (other : String) : Bool :=
  compare_token self.hashed_token other

/-- `AccessTokenStore.save_token`.  Looks up the owning user (raising
`ValueError` when absent, before anything is added), then adds the ORM row
and commits; a failing commit is rolled back and the function still returns
normally. -/
def AccessTokenStore.save_token (commitOk : Bool) (db : DBState)
    (access_token : AccessToken) : Except OAuthError Unit × DBState :=
  match db.users.find? (fun u => u.id == access_token.user_id) with
  | none =>
      (.error (.valueError ("No user for access token: " ++
        toString access_token.user_id)), db)
  | some user =>
      let orm_access_token : OAuthAccessTokenRow :=
        { client_id := access_token.client_id
          grant_type := access_token.grant_type
          expires_at := access_token.expires_at
          refresh_token := access_token.refresh_token
          refresh_expires_at := access_token.refresh_expires_at
          token := access_token.token
          user_id := user.id }
      if commitOk then
        (.ok (), { db with
          oauthAccessTokens := db.oauthAccessTokens ++ [orm_access_token] })
      else
        (.ok (), db)

/-- `AuthCodeStore.fetch_by_code`.  The query sits in a bare
`try/except: rollback`; when it raises, the following use of `orm_code`
raises `NameError`.  Otherwise: no matching row raises `AuthCodeNotFound`,
a matching row is rebuilt into an `AuthorizationCode` (scopes always `[]`,
no expiry check). -/
def AuthCodeStore.fetch_by_code (queryOk : Bool) (db : DBState)
    (code : String) : Except OAuthError AuthorizationCode × DBState :=
  if queryOk then
    match db.oauthCodes.find? (fun r => r.code == code) with
    | none => (.error .authCodeNotFound, db)
    | some orm_code =>
        (.ok { client_id := orm_code.client_id
               code := code
               expires_at := orm_code.expires_at
               redirect_uri := orm_code.redirect_uri
               scopes := []
               user_id := orm_code.user_id }, db)
  else
    (.error (.nameError "orm_code"), db)

/-- `AuthCodeStore.save_code`.  Adds the ORM row and commits; a failing
commit is rolled back and the function still returns normally. -/
def AuthCodeStore.save_code (commitOk : Bool) (db : DBState)
    (authorization_code : AuthorizationCode) : Except OAuthError Unit × DBState :=
  let orm_code : OAuthCodeRow :=
    { client_id := authorization_code.client_id
      code := authorization_code.code
      expires_at := authorization_code.expires_at
      user_id := authorization_code.user_id
      redirect_uri := authorization_code.redirect_uri }
  if commitOk then
    (.ok (), { db with oauthCodes := db.oauthCodes ++ [orm_code] })
  else
    (.ok (), db)

/-- `AuthCodeStore.delete_code`.  Finds the first row with the given code;
when none exists this is a no-op; otherwise the row is deleted and the
commit attempted, a failing commit being rolled back. -/
def AuthCodeStore.delete_code (commitOk : Bool) (db : DBState)
    (code : String) : Except OAuthError Unit × DBState :=
  match db.oauthCodes.find? (fun r => r.code == code) with
  | none => (.ok (), db)
  | some _ =>
      if commitOk then
        (.ok (), { db with
          oauthCodes := db.oauthCodes.eraseP (fun r => r.code == code) })
      else
        (.ok (), db)

/-- `ClientStore.fetch_by_client_id`.  Same `try/except: rollback` pattern as
`fetch_by_code` (a raising query leads to `NameError` on `orm_client`);
otherwise a miss raises `ClientNotFoundError` and a hit is rebuilt into a
`Client` whose `redirect_uris` is the singleton of the stored row's
`redirect_uri` and whose secret is the `HashComparable` wrapper. -/
def ClientStore.fetch_by_client_id (queryOk : Bool) (db : DBState)
    (client_id : String) : Except OAuthError Client × DBState :=
  if queryOk then
    match db.oauthClients.find? (fun c => c.identifier == client_id) with
    | none => (.error .clientNotFoundError, db)
    | some orm_client =>
        (.ok { identifier := client_id
               redirect_uris := [orm_client.redirect_uri]
               secret := { hashed_token := orm_client.secret } }, db)
  else
    (.error (.nameError "orm_client"), db)

/-- `ClientStore.add_client`.  Inside one `try`: delete every existing row
with this `client_id`, commit, then add a fresh row with the hashed secret
and commit again.  If the query or the first commit raises, the rollback
restores the original state and the trailing log line reads the unassigned
`orm_client`, raising `NameError`.  If only the second commit raises, the
deletions stay committed, the insert is rolled back, and the function
returns normally. -/
def ClientStore.add_client (queryOk commit1Ok commit2Ok : Bool) (db : DBState)
    (client_id client_secret redirect_uri : String) :
    Except OAuthError Unit × DBState :=
  if queryOk && commit1Ok then
    let cleared : DBState := { db with
      oauthClients := db.oauthClients.filter (fun c => !(c.identifier == client_id)) }
    let orm_client : OAuthClientRow :=
      { identifier := client_id
        secret := hash_token client_secret
        redirect_uri := redirect_uri }
    if commit2Ok then
      (.ok (), { cleared with
        oauthClients := cleared.oauthClients ++ [orm_client] })
    else
      (.ok (), cleared)
  else
    (.error (.nameError "orm_client"), db)

/-! ## Helper lemmas about list queries -/

/-- Searching an append whose first part has no match searches the second. -/
theorem find?_append_of_none {α : Type} (p : α → Bool) (l₁ l₂ : List α)
    (h : l₁.find? p = none) : (l₁ ++ l₂).find? p = l₂.find? p := by
  induction l₁ with
  | nil => simp
  | cons a t ih =>
    cases hpa : p a with
    | true => rw [List.find?_cons_of_pos _ hpa] at h; cases h
    | false =>
      rw [List.find?_cons_of_neg _ (by simp [hpa])] at h
      rw [List.cons_append, List.find?_cons_of_neg _ (by simp [hpa])]
      exact ih h

/-- Filtering out every match of `p` leaves nothing for `find? p` to find. -/
theorem find?_filter_not {α : Type} (p : α → Bool) (l : List α) :
    (l.filter (fun x => !(p x))).find? p = none := by
  rw [List.find?_eq_none]
  intro x hx hpx
  have h2 := (List.mem_filter.mp hx).2
  simp [hpx] at h2

/-- Filtering out every match of `p` leaves a `countP p` of zero. -/
theorem countP_filter_not {α : Type} (p : α → Bool) (l : List α) :
    (l.filter (fun x => !(p x))).countP p = 0 := by
  rw [List.countP_eq_zero]
  intro a ha hpa
  have h2 := (List.mem_filter.mp ha).2
  simp [hpa] at h2

/-- Filtering out the matches of `p` is idempotent. -/
theorem filter_not_idem {α : Type} (p : α → Bool) (l : List α) :
    (l.filter (fun x => !(p x))).filter (fun x => !(p x))
      = l.filter (fun x => !(p x)) := by
  rw [List.filter_eq_self]
  intro a ha
  exact (List.mem_filter.mp ha).2

/-- When at most one element matches `p`, erasing the first match leaves no
match at all. -/
theorem find?_eraseP_of_countP_le_one {α : Type} (p : α → Bool) (l : List α)
    (h : l.countP p ≤ 1) : (l.eraseP p).find? p = none := by
  induction l with
  | nil => simp
  | cons a t ih =>
    cases hpa : p a with
    | true =>
      rw [List.eraseP_cons_of_pos hpa]
      rw [List.countP_cons_of_pos _ _ hpa] at h
      rw [List.find?_eq_none]
      intro x hx hpx
      have hz : t.countP p = 0 := by omega
      rw [List.countP_eq_zero] at hz
      exact hz x hx hpx
    | false =>
      rw [List.eraseP_cons_of_neg (by simp [hpa])]
      rw [List.find?_cons_of_neg _ (by simp [hpa])]
      rw [List.countP_cons_of_neg _ _ (by simp [hpa])] at h
      exact ih h

/-! ## Claim theorems -/

/-- C1: `fetch_by_code` raises `AuthCodeNotFound` whenever no row with the
exact code value is stored; in particular, once a stored code (unique, per
the data model) has been consumed by `delete_code`, fetching it again
raises `AuthCodeNotFound` rather than returning an `AuthorizationCode`. -/
theorem fetchByCode_single_use (db : DBState) (code : String)
    (hcount : db.oauthCodes.countP (fun r => r.code == code) ≤ 1) :
    (db.oauthCodes.find? (fun r => r.code == code) = none →
      AuthCodeStore.fetch_by_code true db code = (.error .authCodeNotFound, db)) ∧
    (∀ db' : DBState, AuthCodeStore.delete_code true db code = (.ok (), db') →
      AuthCodeStore.fetch_by_code true db' code = (.error .authCodeNotFound, db')) := by
  constructor
  · intro hnone
    simp [AuthCodeStore.fetch_by_code, hnone]
  · intro db' hdel
    cases hfind : db.oauthCodes.find? (fun r => r.code == code) with
    | none =>
      simp [AuthCodeStore.delete_code, hfind] at hdel
      subst hdel
      simp [AuthCodeStore.fetch_by_code, hfind]
    | some a =>
      simp [AuthCodeStore.delete_code, hfind] at hdel
      subst hdel
      simp [AuthCodeStore.fetch_by_code,
        find?_eraseP_of_countP_le_one (fun r => r.code == code) db.oauthCodes hcount]

theorem fetchByCode_single_use_witness :
    AuthCodeStore.fetch_by_code true
        (AuthCodeStore.delete_code true
          ⟨[⟨1⟩], [⟨"cid", "abc", 100, 1, "uri"⟩], [], []⟩ "abc").2 "abc"
      = (.error .authCodeNotFound,
         (AuthCodeStore.delete_code true
           ⟨[⟨1⟩], [⟨"cid", "abc", 100, 1, "uri"⟩], [], []⟩ "abc").2) :=
  (fetchByCode_single_use ⟨[⟨1⟩], [⟨"cid", "abc", 100, 1, "uri"⟩], [], []⟩ "abc"
    (by decide)).2 _ rfl

/-- C6: `delete_code` is idempotent: deleting an absent code is a no-op
that completes without error and leaves the state unchanged, the result is
always a normal return, and (with the data model's at-most-one-row-per-code
invariant) deleting twice equals deleting once. -/
theorem deleteCode_idempotent (db : DBState) (code : String)
    (hcount : db.oauthCodes.countP (fun r => r.code == code) ≤ 1) :
    (db.oauthCodes.find? (fun r => r.code == code) = none →
      AuthCodeStore.delete_code true db code = (.ok (), db)) ∧
    (AuthCodeStore.delete_code true db code).1 = .ok () ∧
    AuthCodeStore.delete_code true (AuthCodeStore.delete_code true db code).2 code
      = AuthCodeStore.delete_code true db code := by
  refine ⟨?_, ?_, ?_⟩
  · intro hnone
    simp [AuthCodeStore.delete_code, hnone]
  · cases hfind : db.oauthCodes.find? (fun r => r.code == code) with
    | none => simp [AuthCodeStore.delete_code, hfind]
    | some a => simp [AuthCodeStore.delete_code, hfind]
  · cases hfind : db.oauthCodes.find? (fun r => r.code == code) with
    | none => simp [AuthCodeStore.delete_code, hfind]
    | some a =>
      simp [AuthCodeStore.delete_code, hfind,
        find?_eraseP_of_countP_le_one (fun r => r.code == code) db.oauthCodes hcount]

theorem deleteCode_idempotent_witness :
    (AuthCodeStore.delete_code true ⟨[], [⟨"cid", "abc", 100, 1, "uri"⟩], [], []⟩ "zz"
       = (.ok (), ⟨[], [⟨"cid", "abc", 100, 1, "uri"⟩], [], []⟩)) ∧
    AuthCodeStore.delete_code true
        (AuthCodeStore.delete_code true
          ⟨[], [⟨"cid", "abc", 100, 1, "uri"⟩], [], []⟩ "abc").2 "abc"
      = AuthCodeStore.delete_code true
          ⟨[], [⟨"cid", "abc", 100, 1, "uri"⟩], [], []⟩ "abc" :=
  ⟨(deleteCode_idempotent ⟨[], [⟨"cid", "abc", 100, 1, "uri"⟩], [], []⟩ "zz"
      (by decide)).1 (by decide),
   (deleteCode_idempotent ⟨[], [⟨"cid", "abc", 100, 1, "uri"⟩], [], []⟩ "abc"
      (by decide)).2.2⟩

/-- C7: `fetch_by_code` performs no expiry check: a stored row is returned
by exact code match whatever its `expires_at` (the operation does not even
take a current time), with the stored `client_id`, `expires_at`,
`redirect_uri`, `user_id` and empty scopes. -/
theorem fetchByCode_no_expiry_check (db : DBState) (code : String) (r : OAuthCodeRow)
    (h : db.oauthCodes.find? (fun c => c.code == code) = some r) :
    AuthCodeStore.fetch_by_code true db code =
      (.ok { client_id := r.client_id
             code := code
             expires_at := r.expires_at
             redirect_uri := r.redirect_uri
             scopes := []
             user_id := r.user_id }, db) := by
  simp [AuthCodeStore.fetch_by_code, h]

theorem fetchByCode_no_expiry_check_witness :
    AuthCodeStore.fetch_by_code true
        ⟨[], [⟨"cid", "abc", -1000, 1, "uri"⟩], [], []⟩ "abc"
      = (.ok ⟨"cid", "abc", -1000, "uri", [], 1⟩,
         ⟨[], [⟨"cid", "abc", -1000, 1, "uri"⟩], [], []⟩) :=
  fetchByCode_no_expiry_check ⟨[], [⟨"cid", "abc", -1000, 1, "uri"⟩], [], []⟩
    "abc" ⟨"cid", "abc", -1000, 1, "uri"⟩ (by decide)

/-- C9: when the underlying query raises inside `fetch_by_code` or
`fetch_by_client_id`, the operation rolls back (state unchanged) and then
reads the never-assigned local (`orm_code` / `orm_client`), so it ends in a
`NameError` — neither a returned value nor the documented not-found
error. -/
theorem fetch_query_failure_unbound_local (db : DBState) (code client_id : String) :
    AuthCodeStore.fetch_by_code false db code
      = (.error (.nameError "orm_code"), db) ∧
    ClientStore.fetch_by_client_id false db client_id
      = (.error (.nameError "orm_client"), db) ∧
    OAuthError.nameError "orm_code" ≠ OAuthError.authCodeNotFound ∧
    OAuthError.nameError "orm_client" ≠ OAuthError.clientNotFoundError :=
  ⟨rfl, rfl, by decide, by decide⟩

/-- After a successful `add_client`, the client table is the old table with
every row for `client_id` removed, plus the fresh hashed row at the end. -/
theorem add_client_oauthClients (db : DBState) (cid s ru : String) :
    ((ClientStore.add_client true true true db cid s ru).2).oauthClients
      = db.oauthClients.filter (fun c => !(c.identifier == cid))
        ++ [{ identifier := cid, secret := hash_token s, redirect_uri := ru }] := by
  simp [ClientStore.add_client]

/-- Looking up `client_id` right after a successful `add_client` finds
exactly the freshly inserted row. -/
theorem add_client_find? (db : DBState) (cid s ru : String) :
    ((ClientStore.add_client true true true db cid s ru).2).oauthClients.find?
        (fun c => c.identifier == cid)
      = some { identifier := cid, secret := hash_token s, redirect_uri := ru } := by
  rw [add_client_oauthClients,
    find?_append_of_none _ _ _ (find?_filter_not _ _)]
  simp

/-- `fetch_by_client_id` right after a successful `add_client` returns the
client built from the freshly inserted row. -/
theorem add_client_fetch (db : DBState) (cid s ru : String) :
    ClientStore.fetch_by_client_id true
        (ClientStore.add_client true true true db cid s ru).2 cid
      = (.ok { identifier := cid, redirect_uris := [ru],
               secret := { hashed_token := hash_token s } },
         (ClientStore.add_client true true true db cid s ru).2) := by
  simp [ClientStore.fetch_by_client_id, add_client_find? db cid s ru]

/-- After a successful `add_client` exactly one stored row carries the
registered `client_id`. -/
theorem add_client_countP (db : DBState) (cid s ru : String) :
    ((ClientStore.add_client true true true db cid s ru).2).oauthClients.countP
        (fun c => c.identifier == cid) = 1 := by
  rw [add_client_oauthClients, List.countP_append, countP_filter_not]
  simp [List.countP, List.countP.go]

/-- The modelled digest is injective, so digest equality characterises
plaintext equality. -/
theorem hash_token_injective (s t : String) (h : hash_token s = hash_token t) :
    s = t := by
  have h2 : '#' :: s.data = '#' :: t.data := congrArg String.data h
  have h3 : s.data = t.data := by injection h2
  cases s with
  | mk sd =>
    cases t with
    | mk td => exact congrArg String.mk h3

/-- C2: registering the same `client_id` twice is register-or-replace — the
second call removes every prior row before inserting, a subsequent fetch
returns a client carrying only the second redirect URI and hashed secret,
and exactly one row for that `client_id` remains stored. -/
theorem addClient_register_or_replace (db : DBState) (cid s1 r1 s2 r2 : String) :
    ClientStore.fetch_by_client_id true
        (ClientStore.add_client true true true
          (ClientStore.add_client true true true db cid s1 r1).2 cid s2 r2).2 cid
      = (.ok { identifier := cid, redirect_uris := [r2],
               secret := { hashed_token := hash_token s2 } },
         (ClientStore.add_client true true true
           (ClientStore.add_client true true true db cid s1 r1).2 cid s2 r2).2) ∧
    ((ClientStore.add_client true true true
        (ClientStore.add_client true true true db cid s1 r1).2 cid s2 r2).2).oauthClients.countP
      (fun c => c.identifier == cid) = 1 :=
  ⟨add_client_fetch _ cid s2 r2, add_client_countP _ cid s2 r2⟩

/-- C3: the hashed-secret wrapper returned for a registered client compares
equal to the registered plaintext, unequal to every other plaintext, and in
general compares equal exactly when the candidate hashes to the stored
digest. -/
theorem hashedSecret_roundtrip (db : DBState) (cid s ru : String) :
    (ClientStore.fetch_by_client_id true
        (ClientStore.add_client true true true db cid s ru).2 cid).1
      = .ok { identifier := cid, redirect_uris := [ru],
              secret := { hashed_token := hash_token s } } ∧
    HashComparable.eq { hashed_token := hash_token s } s = true ∧
    (∀ t : String, t ≠ s →
      HashComparable.eq { hashed_token := hash_token s } t = false) ∧
    (∀ t : String, HashComparable.eq { hashed_token := hash_token s } t = true ↔
      hash_token t = hash_token s) := by
  refine ⟨?_, ?_, ?_, ?_⟩
  · rw [add_client_fetch]
  · simp [HashComparable.eq, compare_token]
  · intro t ht
    simp only [HashComparable.eq, compare_token, beq_eq_false_iff_ne, ne_eq]
    intro hc
    exact ht (hash_token_injective t s hc)
  · intro t
    simp [HashComparable.eq, compare_token]

/-- C10: every `Client` that `fetch_by_client_id` returns carries exactly
one redirect URI — the singleton of the matched row's `redirect_uri` — and
after a registration the fetched client carries exactly the redirect URI of
that most recent registration; several redirect URIs per client are not
representable through this store. -/
theorem fetchClient_single_redirect (db : DBState) (cid : String) (cl : Client)
    (db' : DBState)
    (h : ClientStore.fetch_by_client_id true db cid = (.ok cl, db')) :
    cl.redirect_uris.length = 1 ∧
    (∃ r, db.oauthClients.find? (fun c => c.identifier == cid) = some r ∧
      cl.redirect_uris = [r.redirect_uri]) ∧
    (∀ s ru : String,
      (ClientStore.fetch_by_client_id true
          (ClientStore.add_client true true true db cid s ru).2 cid).1
        = .ok { identifier := cid, redirect_uris := [ru],
                secret := { hashed_token := hash_token s } }) := by
  cases hfind : db.oauthClients.find? (fun c => c.identifier == cid) with
  | none => simp [ClientStore.fetch_by_client_id, hfind] at h
  | some r =>
    simp [ClientStore.fetch_by_client_id, hfind] at h
    refine ⟨?_, ⟨r, rfl, ?_⟩, ?_⟩
    · rw [← h.1]
      rfl
    · rw [← h.1]
    · intro s ru
      rw [add_client_fetch db cid s ru]

theorem fetchClient_single_redirect_witness :
    (Client.mk "cid" ["uri"] (HashComparable.mk "sec")).redirect_uris.length = 1 ∧
    (ClientStore.fetch_by_client_id true
        (ClientStore.add_client true true true
          (DBState.mk [] [] [OAuthClientRow.mk "cid" "sec" "uri"] [])
          "cid" "s2" "uri2").2 "cid").1
      = .ok (Client.mk "cid" ["uri2"] (HashComparable.mk (hash_token "s2"))) :=
  ⟨(fetchClient_single_redirect
      (DBState.mk [] [] [OAuthClientRow.mk "cid" "sec" "uri"] []) "cid"
      (Client.mk "cid" ["uri"] (HashComparable.mk "sec"))
      (DBState.mk [] [] [OAuthClientRow.mk "cid" "sec" "uri"] []) rfl).1,
   (fetchClient_single_redirect
      (DBState.mk [] [] [OAuthClientRow.mk "cid" "sec" "uri"] []) "cid"
      (Client.mk "cid" ["uri"] (HashComparable.mk "sec"))
      (DBState.mk [] [] [OAuthClientRow.mk "cid" "sec" "uri"] []) rfl).2.2 "s2" "uri2"⟩

/-- C4: saving an access token whose `user_id` resolves to no stored user
raises the dedicated `ValueError` (the store's user-not-found signal, not a
database error) before anything is added, leaving the state unchanged —
whether or not the commit would have succeeded. -/
theorem saveToken_missing_user (db : DBState) (tok : AccessToken) (commitOk : Bool)
    (h : db.users.find? (fun u => u.id == tok.user_id) = none) :
    AccessTokenStore.save_token commitOk db tok
      = (.error (.valueError ("No user for access token: " ++
          toString tok.user_id)), db) := by
  simp [AccessTokenStore.save_token, h]

theorem saveToken_missing_user_witness :
    AccessTokenStore.save_token true
        (DBState.mk [UserRow.mk 1] [] [] [])
        (AccessToken.mk "cid" "authorization_code" 100 none none "tok" 7)
      = (.error (.valueError ("No user for access token: " ++ toString (7 : Nat))),
         DBState.mk [UserRow.mk 1] [] [] []) :=
  saveToken_missing_user (DBState.mk [UserRow.mk 1] [] [] [])
    (AccessToken.mk "cid" "authorization_code" 100 none none "tok" 7) true (by decide)

/-- C5: when the commit fails, `save_token` (for an existing user) and
`save_code` roll back and then return normally — the `.ok` result with the
state rolled back to its pre-call value — instead of reporting the
persistence failure to the caller. -/
theorem commit_failure_swallowed (db : DBState) (tok : AccessToken) (u : UserRow)
    (ac : AuthorizationCode)
    (h : db.users.find? (fun w => w.id == tok.user_id) = some u) :
    AccessTokenStore.save_token false db tok = (.ok (), db) ∧
    AuthCodeStore.save_code false db ac = (.ok (), db) := by
  constructor
  · simp [AccessTokenStore.save_token, h]
  · simp [AuthCodeStore.save_code]

theorem commit_failure_swallowed_witness :
    AccessTokenStore.save_token false
        (DBState.mk [UserRow.mk 1] [] [] [])
        (AccessToken.mk "cid" "authorization_code" 100 none none "tok" 1)
      = (.ok (), DBState.mk [UserRow.mk 1] [] [] []) ∧
    AuthCodeStore.save_code false (DBState.mk [UserRow.mk 1] [] [] [])
        (AuthorizationCode.mk "cid" "abc" 100 "uri" [] 1)
      = (.ok (), DBState.mk [UserRow.mk 1] [] [] []) :=
  commit_failure_swallowed (DBState.mk [UserRow.mk 1] [] [] [])
    (AccessToken.mk "cid" "authorization_code" 100 none none "tok" 1)
    (UserRow.mk 1)
    (AuthorizationCode.mk "cid" "abc" 100 "uri" [] 1) (by decide)
